import Mathlib

/-!
# Verification of the CrimeScope-Web API client

Shallow embedding of `src/CrimeScope-Web/js/api_client.js` (the sole source
file of the repository).  The file defines two base-URL string constants and
an `ApiClient` object with three `async` operations — `getStats`, `getTrend`,
`getPrediction` — each of which builds a GET URL, awaits `fetch`, throws on a
non-ok response, parses the body with `response.json()`, and maps every
failure (transport error, non-success status, JSON decode error) to a logged
diagnostic and a `null` return value.

The embedding models:
* JavaScript values produced by `JSON.parse` as the inductive `Json`
  (JSON numbers, which are IEEE doubles in JavaScript, are modelled exactly
  as rationals; every numeral in the claims is a small integer, where the
  two semantics agree);
* the browser's `fetch` as an environment `env : String → FetchOutcome`
  mapping a request URL to either a transport-level failure or a response
  carrying a status code and a body string;
* `response.ok` as the WHATWG-specified test `200 ≤ status ≤ 299`;
* `response.json()` as the executable parser `parseJson` below, a
  recursive-descent JSON parser following ECMA-404 / `JSON.parse`:
  whitespace-insensitive, rejecting leading zeros, trailing garbage,
  unescaped control characters, and non-JSON input;
* `encodeURIComponent` per ECMAScript: code points outside the unreserved
  set are written as the uppercase `%XX` encoding of their UTF-8 bytes;
* each operation as a total function returning the resulting JavaScript
  value together with the list of URLs fetched and the list of
  `console.error` diagnostics emitted, so that request-count and
  log-count claims are statable.
-/

/-- JavaScript values that can result from `JSON.parse` (or the JS `null`
returned on the failure path).  Numbers are modelled as exact rationals. -/
inductive Json where
  | null : Json
  | bool : Bool → Json
  | num : Rat → Json
  | str : String → Json
  | arr : List Json → Json
  | obj : List (String × Json) → Json
deriving Repr, BEq

/-! ## `encodeURIComponent` (ECMAScript §19.2.6.5) -/

/-- Characters left unescaped by `encodeURIComponent`:
`A`–`Z`, `a`–`z`, `0`–`9`, and `- _ . ! ~ * ' ( )`. -/
def isUriUnreserved (c : Char) : Bool :=
  let n := c.toNat
  (65 ≤ n && n ≤ 90) || (97 ≤ n && n ≤ 122) || (48 ≤ n && n ≤ 57) ||
  n = 45 || n = 95 || n = 46 || n = 33 || n = 126 || n = 42 || n = 39 ||
  n = 40 || n = 41

/-- The UTF-8 bytes of a Unicode scalar value, as natural numbers. -/
def utf8Bytes (c : Char) : List Nat :=
  let n := c.toNat
  if n < 0x80 then [n]
  else if n < 0x800 then [0xC0 + n / 64, 0x80 + n % 64]
  else if n < 0x10000 then
    [0xE0 + n / 4096, 0x80 + (n / 64) % 64, 0x80 + n % 64]
  else
    [0xF0 + n / 262144, 0x80 + (n / 4096) % 64, 0x80 + (n / 64) % 64,
     0x80 + n % 64]

/-- Uppercase hexadecimal digit for `n < 16`. -/
def hexDigitChar (n : Nat) : Char :=
  if n < 10 then Char.ofNat (48 + n) else Char.ofNat (55 + n)

/-- `%XX` escape of one byte. -/
def pctByte (b : Nat) : String :=
  String.mk ['%', hexDigitChar (b / 16), hexDigitChar (b % 16)]

/-- `encodeURIComponent`: unreserved characters pass through, every other
character is replaced by the percent-encoding of its UTF-8 bytes. -/
def encodeURIComponent (s : String) : String :=
  String.join (s.data.map fun c =>
    if isUriUnreserved c then String.mk [c]
    else String.join ((utf8Bytes c).map pctByte))

/-! ## `JSON.parse` (`response.json()`) -/

/-- JSON insignificant whitespace: space, tab, line feed, carriage return. -/
def isJsonWs (c : Char) : Bool :=
  c.toNat = 32 || c.toNat = 9 || c.toNat = 10 || c.toNat = 13

/-- Drop leading JSON whitespace. -/
def skipWs : List Char → List Char
  | [] => []
  | c :: cs => if isJsonWs c then skipWs cs else c :: cs

/-- Decimal digits prefix of a character list, with the remainder. -/
def takeDigits : List Char → (List Char × List Char)
  | [] => ([], [])
  | c :: cs =>
    if c.isDigit then
      let (ds, rest) := takeDigits cs
      (c :: ds, rest)
    else ([], c :: cs)

/-- Value of a list of decimal digits. -/
def digitsToNat (ds : List Char) : Nat :=
  ds.foldl (fun acc c => 10 * acc + (c.toNat - 48)) 0

/-- Value of a hexadecimal digit character, if it is one. -/
def hexVal (c : Char) : Option Nat :=
  let n := c.toNat
  if 48 ≤ n && n ≤ 57 then some (n - 48)
  else if 65 ≤ n && n ≤ 70 then some (n - 55)
  else if 97 ≤ n && n ≤ 102 then some (n - 87)
  else none

/-- Parse the body of a JSON string literal (the opening quote already
consumed): unescaped characters up to the closing quote, with the JSON
escape sequences; unescaped control characters are rejected as in
`JSON.parse`. -/
def parseStringRest : List Char → Option (List Char × List Char)
  | [] => none
  | c :: cs =>
    if c.toNat = 34 then some ([], cs)
    else if c.toNat = 92 then
      match cs with
      | [] => none
      | e :: cs' =>
        let simple : Option Char :=
          if e.toNat = 34 then some (Char.ofNat 34)
          else if e.toNat = 92 then some (Char.ofNat 92)
          else if e.toNat = 47 then some (Char.ofNat 47)
          else if e = 'b' then some (Char.ofNat 8)
          else if e = 'f' then some (Char.ofNat 12)
          else if e = 'n' then some (Char.ofNat 10)
          else if e = 'r' then some (Char.ofNat 13)
          else if e = 't' then some (Char.ofNat 9)
          else none
        match simple with
        | some ch =>
          match parseStringRest cs' with
          | some (tail, rest) => some (ch :: tail, rest)
          | none => none
        | none =>
          if e = 'u' then
            match cs' with
            | h1 :: h2 :: h3 :: h4 :: cs'' =>
              match hexVal h1, hexVal h2, hexVal h3, hexVal h4 with
              | some a, some b, some c3, some d =>
                match parseStringRest cs'' with
                | some (tail, rest) =>
                  some (Char.ofNat (4096 * a + 256 * b + 16 * c3 + d) :: tail,
                        rest)
                | none => none
              | _, _, _, _ => none
            | _ => none
          else none
    else if c.toNat < 32 then none
    else
      match parseStringRest cs with
      | some (tail, rest) => some (c :: tail, rest)
      | none => none

/-- Exact rational value `10 ^ e` for an integer exponent. -/
def pow10Q (e : Int) : Rat :=
  if 0 ≤ e then ((10 : Rat) ^ e.toNat) else ((10 : Rat) ^ (-e).toNat)⁻¹

/-- Parse a JSON number starting at the given characters (grammar
`-? (0 | [1-9][0-9]*) (. [0-9]+)? ([eE] [+-]? [0-9]+)?`), returning its
exact rational value and the remainder. -/
def parseNumber (cs : List Char) : Option (Rat × List Char) :=
  let (neg, cs1) :=
    match cs with
    | c :: rest => if c = '-' then (true, rest) else (false, cs)
    | [] => (false, cs)
  let (intDs, cs2) := takeDigits cs1
  match intDs with
  | [] => none
  | d0 :: drest =>
    -- JSON rejects leading zeros: "0" is fine, "013" is not.
    if d0 = '0' && drest ≠ [] then none
    else
      let intVal : Nat := digitsToNat intDs
      let (fracDs, cs3) :=
        match cs2 with
        | c :: rest =>
          if c = '.' then takeDigits rest else ([], cs2)
        | [] => ([], cs2)
      -- a '.' must be followed by at least one digit
      if (match cs2 with
          | c :: _ => c = '.' && fracDs = []
          | [] => false) then none
      else
        let hasExp : Bool :=
          match cs3 with
          | c :: _ => c = 'e' || c = 'E'
          | [] => false
        if hasExp then
          match cs3 with
          | _ :: cs4 =>
            let (expNeg, cs5) :=
              match cs4 with
              | c :: rest =>
                if c = '+' then (false, rest)
                else if c = '-' then (true, rest)
                else (false, cs4)
              | [] => (false, cs4)
            let (expDs, cs6) := takeDigits cs5
            if expDs = [] then none
            else
              let e : Int :=
                (if expNeg then -1 else 1) * (digitsToNat expDs : Int)
              let mant : Int :=
                (if neg then -1 else 1) *
                  ((intVal * 10 ^ fracDs.length + digitsToNat fracDs : Nat) : Int)
              some ((mant : Rat) * pow10Q (e - (fracDs.length : Int)), cs6)
          | [] => none
        else
          let mant : Int :=
            (if neg then -1 else 1) *
              ((intVal * 10 ^ fracDs.length + digitsToNat fracDs : Nat) : Int)
          if fracDs = [] then some ((mant : Rat), cs3)
          else some ((mant : Rat) * pow10Q (-(fracDs.length : Int)), cs3)

mutual

/-- Recursive-descent parser for one JSON value (fuel-indexed). -/
def parseValue : Nat → List Char → Option (Json × List Char)
  | 0, _ => none
  | Nat.succ f, cs =>
    match skipWs cs with
    | [] => none
    | c :: rest =>
      if c = 'n' then
        match rest with
        | 'u' :: 'l' :: 'l' :: rest' => some (Json.null, rest')
        | _ => none
      else if c = 't' then
        match rest with
        | 'r' :: 'u' :: 'e' :: rest' => some (Json.bool true, rest')
        | _ => none
      else if c = 'f' then
        match rest with
        | 'a' :: 'l' :: 's' :: 'e' :: rest' => some (Json.bool false, rest')
        | _ => none
      else if c.toNat = 34 then
        match parseStringRest rest with
        | some (body, rest') => some (Json.str (String.mk body), rest')
        | none => none
      else if c.toNat = 0x5b then
        parseArrayRest f (skipWs rest)
      else if c.toNat = 0x7b then
        parseObjectRest f (skipWs rest)
      else if c = '-' || c.isDigit then
        match parseNumber (c :: rest) with
        | some (q, rest') => some (Json.num q, rest')
        | none => none
      else none

/-- Parse the remainder of a JSON array, the opening `[` and following
whitespace already consumed. -/
def parseArrayRest : Nat → List Char → Option (Json × List Char)
  | 0, _ => none
  | Nat.succ f, cs =>
    match cs with
    | c :: rest =>
      if c.toNat = 0x5d then some (Json.arr [], rest)
      else
        parseArrayItems f cs []
    | [] => none

/-- Parse one or more comma-separated array elements up to `]`.  The
accumulator holds the elements already parsed, in reverse. -/
def parseArrayItems : Nat → List Char → List Json → Option (Json × List Char)
  | 0, _, _ => none
  | Nat.succ f, cs, acc =>
    match parseValue f cs with
    | some (v, rest) =>
      match skipWs rest with
      | c :: rest' =>
        if c = ',' then parseArrayItems f rest' (v :: acc)
        else if c.toNat = 0x5d then some (Json.arr (v :: acc).reverse, rest')
        else none
      | [] => none
    | none => none

/-- Parse the remainder of a JSON object, the opening brace and following
whitespace already consumed. -/
def parseObjectRest : Nat → List Char → Option (Json × List Char)
  | 0, _ => none
  | Nat.succ f, cs =>
    match cs with
    | c :: rest =>
      if c.toNat = 0x7d then some (Json.obj [], rest)
      else parseObjectItems f cs []
    | [] => none

/-- Parse one or more comma-separated `"key": value` members up to the
closing brace.  The accumulator holds the members already parsed, in
reverse. -/
def parseObjectItems : Nat → List Char → List (String × Json) →
    Option (Json × List Char)
  | 0, _, _ => none
  | Nat.succ f, cs, acc =>
    match skipWs cs with
    | c :: rest =>
      if c.toNat = 34 then
        match parseStringRest rest with
        | some (key, rest1) =>
          match skipWs rest1 with
          | c2 :: rest2 =>
            if c2 = ':' then
              match parseValue f rest2 with
              | some (v, rest3) =>
                match skipWs rest3 with
                | c3 :: rest4 =>
                  if c3 = ',' then
                    parseObjectItems f rest4 ((String.mk key, v) :: acc)
                  else if c3.toNat = 0x7d then
                    some (Json.obj ((String.mk key, v) :: acc).reverse, rest4)
                  else none
                | [] => none
              | none => none
            else none
          | [] => none
        | none => none
      else none
    | [] => none

end

/-- The model of `response.json()` / `JSON.parse`: parse one JSON value and
require that only whitespace follows it.  `none` models the `SyntaxError`
thrown on malformed input.  The fuel `2 * length + 8` dominates the number
of parser steps, each of which consumes at least one character per two fuel
units. -/
def parseJson (s : String) : Option Json :=
  match parseValue (2 * s.length + 8) s.data with
  | some (j, rest) =>
    match skipWs rest with
    | [] => some j
    | _ :: _ => none
  | none => none

/-! ## The transport (`fetch`) model and the client -/

/-- Outcome of `await fetch(url)`: either the promise rejects below the HTTP
layer (connection refused, DNS failure, transport timeout — carried as the
error's message), or a response arrives with a status code and a body
string. -/
inductive FetchOutcome where
  | transportError : String → FetchOutcome
  | response : Nat → String → FetchOutcome

/-- An environment assigning to each request URL the outcome of fetching
it; this closes over the network and the backend. -/
def FetchEnv : Type := String → FetchOutcome

/-- `Response.ok` per the WHATWG fetch specification: status in 200–299. -/
def responseOk (status : Nat) : Bool :=
  200 ≤ status && status ≤ 299

/-- Observable result of one client call: the JavaScript value the promise
resolves to, the URLs fetched (in order), and the `console.error`
diagnostics emitted (in order). -/
structure CallResult where
  value : Json
  requests : List String
  logs : List String

-- `const API_BASE_URL = 'http://127.0.0.com/api';` (line 5 of the source)
def API_BASE_URL : String := "http://127.0.0.com/api"

-- `const API_URL = 'http://127.0.0.1:5000/api';` (line 7 of the source)
def API_URL : String := "http://127.0.0.1:5000/api"

/-- The URL built by `getStats`:
`${API_URL}/stats?state=${encodeURIComponent(state)}&min_year=${minYear}&max_year=${maxYear}`. -/
def statsUrl (state : String) (minYear maxYear : Int) : String :=
  API_URL ++ "/stats?state=" ++ encodeURIComponent state ++
    "&min_year=" ++ toString minYear ++ "&max_year=" ++ toString maxYear

/-- The URL built by `getTrend`:
`${API_URL}/chart/trend?state=${encodeURIComponent(state)}`. -/
def trendUrl (state : String) : String :=
  API_URL ++ "/chart/trend?state=" ++ encodeURIComponent state

/-- The URL built by `getPrediction`:
`${API_URL}/predict?state=${encodeURIComponent(state)}&target_year=${targetYear}`. -/
def predictUrl (state : String) (targetYear : Int) : String :=
  API_URL ++ "/predict?state=" ++ encodeURIComponent state ++
    "&target_year=" ++ toString targetYear

/-- Shared request/response skeleton of the three operations' bodies: fetch
the URL; a transport rejection is caught and its message logged; a non-ok
response throws `new Error(errMsg)`, caught and logged; an ok response is
parsed with `response.json()`, whose `SyntaxError` is likewise caught and
logged; every caught error yields `null`. -/
def runGet (env : FetchEnv) (url : String) (errMsg : String) : CallResult :=
  match env url with
  | FetchOutcome.transportError msg =>
    { value := Json.null, requests := [url], logs := [msg] }
  | FetchOutcome.response status body =>
    if responseOk status then
      match parseJson body with
      | some j => { value := j, requests := [url], logs := [] }
      | none =>
        { value := Json.null, requests := [url],
          logs := ["SyntaxError: JSON parse error"] }
    else
      { value := Json.null, requests := [url], logs := ["Error: " ++ errMsg] }

/-- `ApiClient.getStats(state = 'all', minYear = 2017, maxYear = 2023)`. -/
def getStats (env : FetchEnv) (state : String := "all")
    (minYear : Int := 2017) (maxYear : Int := 2023) : CallResult :=
  runGet env (statsUrl state minYear maxYear) "API Error fetching stats"

/-- `ApiClient.getTrend(state = 'all')`. -/
def getTrend (env : FetchEnv) (state : String := "all") : CallResult :=
  runGet env (trendUrl state) "API Error fetching trend data"

/-- `ApiClient.getPrediction(state = 'all', targetYear = 2024)`. -/
def getPrediction (env : FetchEnv) (state : String := "all")
    (targetYear : Int := 2024) : CallResult :=
  runGet env (predictUrl state targetYear) "API Error fetching prediction"

/-- Whether the call on `url` under `env` takes the success path: a
response arrives, its status is in 200–299, and its body parses as JSON. -/
def callSucceeds (env : FetchEnv) (url : String) : Bool :=
  match env url with
  | FetchOutcome.transportError _ => false
  | FetchOutcome.response status body =>
    responseOk status && (parseJson body).isSome

/-! ## Helper lemmas about the shared request/response skeleton -/

/-- Every call fetches exactly its one URL. -/
theorem runGet_requests (env : FetchEnv) (url m : String) :
    (runGet env url m).requests = [url] := by
  unfold runGet
  cases h : env url with
  | transportError msg => rfl
  | response st bd =>
    cases hok : responseOk st with
    | false => simp [hok]
    | true => cases hp : parseJson bd <;> simp [hok, hp]

/-- The resolved value is `null` or a successfully parsed response body. -/
theorem runGet_value_cases (env : FetchEnv) (url m : String) :
    (runGet env url m).value = Json.null ∨
      ∃ st bd j, env url = FetchOutcome.response st bd ∧
        parseJson bd = some j ∧ (runGet env url m).value = j := by
  unfold runGet
  cases h : env url with
  | transportError msg => exact Or.inl rfl
  | response st bd =>
    cases hok : responseOk st with
    | false => exact Or.inl (by simp [hok])
    | true =>
      cases hp : parseJson bd with
      | none => exact Or.inl (by simp [hok, hp])
      | some j => exact Or.inr ⟨st, bd, j, rfl, hp, by simp [hok, hp]⟩

/-- A non-success status makes `responseOk` false. -/
theorem responseOk_eq_false (st : Nat) (hst : ¬ (200 ≤ st ∧ st ≤ 299)) :
    responseOk st = false := by
  simp only [responseOk, Bool.and_eq_false_iff, decide_eq_false_iff_not]
  omega

/-- A response with a non-success status yields a result that does not
depend on the body at all (the body is never parsed). -/
theorem runGet_notOk (env : FetchEnv) (url m : String) (st : Nat) (bd : String)
    (h : env url = FetchOutcome.response st bd)
    (hst : ¬ (200 ≤ st ∧ st ≤ 299)) :
    runGet env url m =
      { value := Json.null, requests := [url], logs := ["Error: " ++ m] } := by
  have hok := responseOk_eq_false st hst
  simp [runGet, h, hok]

/-- A transport-level failure yields `null` with the error logged. -/
theorem runGet_transport (env : FetchEnv) (url m msg : String)
    (h : env url = FetchOutcome.transportError msg) :
    runGet env url m =
      { value := Json.null, requests := [url], logs := [msg] } := by
  simp [runGet, h]

/-- An ok response whose body parses resolves to exactly the parsed value,
with nothing logged. -/
theorem runGet_ok_parse (env : FetchEnv) (url m : String) (st : Nat)
    (bd : String) (j : Json) (h : env url = FetchOutcome.response st bd)
    (hok : responseOk st = true) (hp : parseJson bd = some j) :
    runGet env url m = { value := j, requests := [url], logs := [] } := by
  simp [runGet, h, hok, hp]

/-- An ok response whose body fails to parse yields `null` with the decode
error logged. -/
theorem runGet_ok_noparse (env : FetchEnv) (url m : String) (st : Nat)
    (bd : String) (h : env url = FetchOutcome.response st bd)
    (hok : responseOk st = true) (hp : parseJson bd = none) :
    runGet env url m =
      { value := Json.null, requests := [url],
        logs := ["SyntaxError: JSON parse error"] } := by
  simp [runGet, h, hok, hp]

/-- Log-count bookkeeping: no log line on the success path, exactly one on
every failure path. -/
theorem runGet_logs_length (env : FetchEnv) (url m : String) :
    (runGet env url m).logs.length =
      (if callSucceeds env url then 0 else 1) := by
  unfold runGet callSucceeds
  cases h : env url with
  | transportError msg => rfl
  | response st bd =>
    cases hok : responseOk st with
    | false => simp [hok]
    | true => cases hp : parseJson bd <;> simp [hok, hp]

/-- Needed for the success-path lemmas at concrete statuses. -/
theorem responseOk_eq_true (st : Nat) (hst : 200 ≤ st ∧ st ≤ 299) :
    responseOk st = true := by
  simp only [responseOk, Bool.and_eq_true, decide_eq_true_eq]
  exact hst

/-! ## The claims -/

/-- Claim C1: for every input and every failure outcome, each of the three
operations returns `null` rather than surfacing an error, and each
operation is total with exactly two outcomes: the parsed JSON value of a
successful response, or JS `null`.  (Totality and freedom from exceptions
hold by construction: each operation is a total Lean function into
`CallResult`; this theorem pins down the two-outcome shape of the value.) -/
theorem C1_two_outcomes (env : FetchEnv) (s : String) (a b ty : Int) :
    ((getStats env s a b).value = Json.null ∨
      ∃ st bd j, env (statsUrl s a b) = FetchOutcome.response st bd ∧
        parseJson bd = some j ∧ (getStats env s a b).value = j) ∧
    ((getTrend env s).value = Json.null ∨
      ∃ st bd j, env (trendUrl s) = FetchOutcome.response st bd ∧
        parseJson bd = some j ∧ (getTrend env s).value = j) ∧
    ((getPrediction env s ty).value = Json.null ∨
      ∃ st bd j, env (predictUrl s ty) = FetchOutcome.response st bd ∧
        parseJson bd = some j ∧ (getPrediction env s ty).value = j) :=
  ⟨runGet_value_cases env _ _, runGet_value_cases env _ _,
   runGet_value_cases env _ _⟩

/-- Claim C2: a response with status outside 200–299 makes every operation
return `null` regardless of the body, and the body is not parsed — the
entire observable result is independent of the body content (`env` and
`env2` respond with the same status but arbitrary different bodies). -/
theorem C2_non_success_null (env env2 : FetchEnv) (s : String) (a b ty : Int)
    (st : Nat) (bd bd2 : String)
    (hst : ¬ (200 ≤ st ∧ st ≤ 299))
    (h1 : env (statsUrl s a b) = FetchOutcome.response st bd)
    (h1' : env2 (statsUrl s a b) = FetchOutcome.response st bd2)
    (h2 : env (trendUrl s) = FetchOutcome.response st bd)
    (h2' : env2 (trendUrl s) = FetchOutcome.response st bd2)
    (h3 : env (predictUrl s ty) = FetchOutcome.response st bd)
    (h3' : env2 (predictUrl s ty) = FetchOutcome.response st bd2) :
    ((getStats env s a b).value = Json.null ∧
      getStats env s a b = getStats env2 s a b) ∧
    ((getTrend env s).value = Json.null ∧
      getTrend env s = getTrend env2 s) ∧
    ((getPrediction env s ty).value = Json.null ∧
      getPrediction env s ty = getPrediction env2 s ty) := by
  refine ⟨⟨?_, ?_⟩, ⟨?_, ?_⟩, ⟨?_, ?_⟩⟩
  · show (runGet env (statsUrl s a b) "API Error fetching stats").value = _
    rw [runGet_notOk env _ _ st bd h1 hst]
  · show runGet env (statsUrl s a b) "API Error fetching stats" =
      runGet env2 (statsUrl s a b) "API Error fetching stats"
    rw [runGet_notOk env _ _ st bd h1 hst,
      runGet_notOk env2 _ _ st bd2 h1' hst]
  · show (runGet env (trendUrl s) "API Error fetching trend data").value = _
    rw [runGet_notOk env _ _ st bd h2 hst]
  · show runGet env (trendUrl s) "API Error fetching trend data" =
      runGet env2 (trendUrl s) "API Error fetching trend data"
    rw [runGet_notOk env _ _ st bd h2 hst,
      runGet_notOk env2 _ _ st bd2 h2' hst]
  · show (runGet env (predictUrl s ty) "API Error fetching prediction").value = _
    rw [runGet_notOk env _ _ st bd h3 hst]
  · show runGet env (predictUrl s ty) "API Error fetching prediction" =
      runGet env2 (predictUrl s ty) "API Error fetching prediction"
    rw [runGet_notOk env _ _ st bd h3 hst,
      runGet_notOk env2 _ _ st bd2 h3' hst]

/-- Witness for C2 at status 404 with two different bodies. -/
theorem C2_non_success_null_witness :
    (getStats (fun _ => FetchOutcome.response 404 "bodyA")
      "CA" 2017 2023).value = Json.null ∧
    getStats (fun _ => FetchOutcome.response 404 "bodyA") "CA" 2017 2023 =
      getStats (fun _ => FetchOutcome.response 404 "bodyB") "CA" 2017 2023 :=
  (C2_non_success_null (fun _ => FetchOutcome.response 404 "bodyA")
    (fun _ => FetchOutcome.response 404 "bodyB") "CA" 2017 2023 2024
    404 "bodyA" "bodyB" (by decide) rfl rfl rfl rfl rfl rfl).1

/-- Claim C3: a 200 response with body `{"total":123}` makes `getStats`
resolve to exactly the parsed object, for every (jurisdiction, year-range)
input; and `getPrediction("CA", 2025)` against a backend answering 200 with
body `{"year":2025,"predicted":4200}` resolves to exactly that object. -/
theorem C3_success_payload (env env2 : FetchEnv) (s : String) (a b : Int)
    (h : env (statsUrl s a b) =
      FetchOutcome.response 200 "\x7b\"total\":123\x7d")
    (h' : env2 (predictUrl "CA" 2025) =
      FetchOutcome.response 200 "\x7b\"year\":2025,\"predicted\":4200\x7d") :
    (getStats env s a b).value = Json.obj [("total", Json.num 123)] ∧
    (getPrediction env2 "CA" 2025).value =
      Json.obj [("year", Json.num 2025), ("predicted", Json.num 4200)] := by
  constructor
  · show (runGet env (statsUrl s a b) "API Error fetching stats").value = _
    rw [runGet_ok_parse env _ _ 200 _ (Json.obj [("total", Json.num 123)])
      h rfl rfl]
  · show (runGet env2 (predictUrl "CA" 2025)
      "API Error fetching prediction").value = _
    rw [runGet_ok_parse env2 _ _ 200 _
      (Json.obj [("year", Json.num 2025), ("predicted", Json.num 4200)])
      h' rfl rfl]

/-- Witness for C3 against stub backends returning the two bodies. -/
theorem C3_success_payload_witness :
    (getStats (fun _ => FetchOutcome.response 200 "\x7b\"total\":123\x7d")
      "all" 2017 2023).value = Json.obj [("total", Json.num 123)] ∧
    (getPrediction
      (fun _ => FetchOutcome.response 200
        "\x7b\"year\":2025,\"predicted\":4200\x7d") "CA" 2025).value =
      Json.obj [("year", Json.num 2025), ("predicted", Json.num 4200)] :=
  C3_success_payload _ _ "all" 2017 2023 rfl rfl

/-- Claim C4: a transport-level failure (the `fetch` promise rejects) makes
every operation return `null`. -/
theorem C4_transport_null (env : FetchEnv) (s : String) (a b ty : Int)
    (m1 m2 m3 : String)
    (h1 : env (statsUrl s a b) = FetchOutcome.transportError m1)
    (h2 : env (trendUrl s) = FetchOutcome.transportError m2)
    (h3 : env (predictUrl s ty) = FetchOutcome.transportError m3) :
    (getStats env s a b).value = Json.null ∧
    (getTrend env s).value = Json.null ∧
    (getPrediction env s ty).value = Json.null := by
  refine ⟨?_, ?_, ?_⟩
  · show (runGet env (statsUrl s a b) "API Error fetching stats").value = _
    rw [runGet_transport env _ _ m1 h1]
  · show (runGet env (trendUrl s) "API Error fetching trend data").value = _
    rw [runGet_transport env _ _ m2 h2]
  · show (runGet env (predictUrl s ty) "API Error fetching prediction").value = _
    rw [runGet_transport env _ _ m3 h3]

/-- Witness for C4 under a connection-refused transport failure. -/
theorem C4_transport_null_witness :
    (getStats (fun _ => FetchOutcome.transportError
      "TypeError: Failed to fetch") "all" 2017 2023).value = Json.null ∧
    (getTrend (fun _ => FetchOutcome.transportError
      "TypeError: Failed to fetch") "all").value = Json.null ∧
    (getPrediction (fun _ => FetchOutcome.transportError
      "TypeError: Failed to fetch") "all" 2024).value = Json.null :=
  C4_transport_null _ "all" 2017 2023 2024 _ _ _ rfl rfl rfl

/-- Claim C5: a success-status (2xx) response whose body fails to decode as
JSON makes every operation return `null` (caught by the same `catch` as a
transport failure). -/
theorem C5_decode_failure_null (env : FetchEnv) (s : String) (a b ty : Int)
    (st : Nat) (bd : String)
    (hok : 200 ≤ st ∧ st ≤ 299) (hp : parseJson bd = none)
    (h1 : env (statsUrl s a b) = FetchOutcome.response st bd)
    (h2 : env (trendUrl s) = FetchOutcome.response st bd)
    (h3 : env (predictUrl s ty) = FetchOutcome.response st bd) :
    (getStats env s a b).value = Json.null ∧
    (getTrend env s).value = Json.null ∧
    (getPrediction env s ty).value = Json.null := by
  have htrue := responseOk_eq_true st hok
  refine ⟨?_, ?_, ?_⟩
  · show (runGet env (statsUrl s a b) "API Error fetching stats").value = _
    rw [runGet_ok_noparse env _ _ st bd h1 htrue hp]
  · show (runGet env (trendUrl s) "API Error fetching trend data").value = _
    rw [runGet_ok_noparse env _ _ st bd h2 htrue hp]
  · show (runGet env (predictUrl s ty) "API Error fetching prediction").value = _
    rw [runGet_ok_noparse env _ _ st bd h3 htrue hp]

/-- Witness for C5 with status 200 and the non-JSON body `not json`. -/
theorem C5_decode_failure_null_witness :
    (getStats (fun _ => FetchOutcome.response 200 "not json")
      "all" 2017 2023).value = Json.null ∧
    (getTrend (fun _ => FetchOutcome.response 200 "not json")
      "all").value = Json.null ∧
    (getPrediction (fun _ => FetchOutcome.response 200 "not json")
      "all" 2024).value = Json.null :=
  C5_decode_failure_null _ "all" 2017 2023 2024 200 "not json"
    (by decide) rfl rfl rfl rfl

/-- Claim C6: every operation places the jurisdiction in its request URL
percent-encoded (`encodeURIComponent`), for every jurisdiction string; in
particular `"New York"` is transmitted as `New%20York` and a `&` in a
jurisdiction is transmitted as `%26`. -/
theorem C6_percent_encoding (env : FetchEnv) (s : String) (a b ty : Int) :
    (getStats env s a b).requests =
      [API_URL ++ "/stats?state=" ++ encodeURIComponent s ++ "&min_year=" ++
        toString a ++ "&max_year=" ++ toString b] ∧
    (getTrend env s).requests =
      [API_URL ++ "/chart/trend?state=" ++ encodeURIComponent s] ∧
    (getPrediction env s ty).requests =
      [API_URL ++ "/predict?state=" ++ encodeURIComponent s ++
        "&target_year=" ++ toString ty] ∧
    encodeURIComponent "New York" = "New%20York" ∧
    encodeURIComponent "a&b" = "a%26b" :=
  ⟨runGet_requests env _ _, runGet_requests env _ _, runGet_requests env _ _,
   rfl, rfl⟩

/-- Claim C7: with all arguments omitted, the documented defaults are
applied: `getTrend()` requests `state=all`, `getPrediction()` requests
`state=all&target_year=2024`, and `getStats()` requests
`state=all&min_year=2017&max_year=2023`. -/
theorem C7_defaults (env : FetchEnv) :
    (getTrend env).requests =
      ["http://127.0.0.1:5000/api/chart/trend?state=all"] ∧
    (getPrediction env).requests =
      ["http://127.0.0.1:5000/api/predict?state=all&target_year=2024"] ∧
    (getStats env).requests =
      ["http://127.0.0.1:5000/api/stats?state=all&min_year=2017&max_year=2023"] := by
  refine ⟨?_, ?_, ?_⟩
  · exact (runGet_requests env (trendUrl "all")
      "API Error fetching trend data").trans (by rfl)
  · exact (runGet_requests env (predictUrl "all" 2024)
      "API Error fetching prediction").trans (by rfl)
  · exact (runGet_requests env (statsUrl "all" 2017 2023)
      "API Error fetching stats").trans (by rfl)

/-- Claim C8: every invocation issues exactly one outbound request (no
retries); every failure path emits exactly one diagnostic to the error
sink, and the success path emits none. -/
theorem C8_one_request_one_log (env : FetchEnv) (s : String) (a b ty : Int) :
    ((getStats env s a b).requests.length = 1 ∧
      (getStats env s a b).logs.length =
        (if callSucceeds env (statsUrl s a b) then 0 else 1)) ∧
    ((getTrend env s).requests.length = 1 ∧
      (getTrend env s).logs.length =
        (if callSucceeds env (trendUrl s) then 0 else 1)) ∧
    ((getPrediction env s ty).requests.length = 1 ∧
      (getPrediction env s ty).logs.length =
        (if callSucceeds env (predictUrl s ty) then 0 else 1)) := by
  refine ⟨⟨?_, ?_⟩, ⟨?_, ?_⟩, ⟨?_, ?_⟩⟩
  · rw [show (getStats env s a b).requests = _ from runGet_requests env _ _]
    rfl
  · exact runGet_logs_length env _ _
  · rw [show (getTrend env s).requests = _ from runGet_requests env _ _]
    rfl
  · exact runGet_logs_length env _ _
  · rw [show (getPrediction env s ty).requests = _ from runGet_requests env _ _]
    rfl
  · exact runGet_logs_length env _ _

/-- Claim C9: every request URL of all three operations is the loopback
base constant `http://127.0.0.1:5000/api` (the value of `API_URL`) with the
endpoint path and query appended; the other constant in the source,
`API_BASE_URL = http://127.0.0.com/api`, appears in no request (the three
operations are defined without reference to it, and each request below is
exactly the loopback literal plus path and query). -/
theorem C9_active_base_url (env : FetchEnv) (s : String) (a b ty : Int) :
    API_URL = "http://127.0.0.1:5000/api" ∧
    API_BASE_URL = "http://127.0.0.com/api" ∧
    (getStats env s a b).requests =
      ["http://127.0.0.1:5000/api" ++ "/stats?state=" ++
        encodeURIComponent s ++ "&min_year=" ++ toString a ++
        "&max_year=" ++ toString b] ∧
    (getTrend env s).requests =
      ["http://127.0.0.1:5000/api" ++ "/chart/trend?state=" ++
        encodeURIComponent s] ∧
    (getPrediction env s ty).requests =
      ["http://127.0.0.1:5000/api" ++ "/predict?state=" ++
        encodeURIComponent s ++ "&target_year=" ++ toString ty] :=
  ⟨rfl, rfl, runGet_requests env _ _, runGet_requests env _ _,
   runGet_requests env _ _⟩

/-- Claim C10: a 200 response whose body is the well-formed JSON text
`null` makes every operation resolve to JS `null` — the very value every
failure path returns — so a caller cannot distinguish a successful `null`
payload from a failure (here: from a transport error on the same call). -/
theorem C10_json_null_indistinguishable (env envT : FetchEnv) (s : String)
    (a b ty : Int) (m : String)
    (h1 : env (statsUrl s a b) = FetchOutcome.response 200 "null")
    (h2 : env (trendUrl s) = FetchOutcome.response 200 "null")
    (h3 : env (predictUrl s ty) = FetchOutcome.response 200 "null")
    (g1 : envT (statsUrl s a b) = FetchOutcome.transportError m) :
    (getStats env s a b).value = Json.null ∧
    (getTrend env s).value = Json.null ∧
    (getPrediction env s ty).value = Json.null ∧
    (getStats env s a b).value = (getStats envT s a b).value := by
  have e1 := runGet_ok_parse env (statsUrl s a b) "API Error fetching stats"
    200 "null" Json.null h1 rfl rfl
  have e2 := runGet_ok_parse env (trendUrl s) "API Error fetching trend data"
    200 "null" Json.null h2 rfl rfl
  have e3 := runGet_ok_parse env (predictUrl s ty)
    "API Error fetching prediction" 200 "null" Json.null h3 rfl rfl
  have eT := runGet_transport envT (statsUrl s a b)
    "API Error fetching stats" m g1
  refine ⟨?_, ?_, ?_, ?_⟩
  · show (runGet env (statsUrl s a b) "API Error fetching stats").value = _
    rw [e1]
  · show (runGet env (trendUrl s) "API Error fetching trend data").value = _
    rw [e2]
  · show (runGet env (predictUrl s ty) "API Error fetching prediction").value = _
    rw [e3]
  · show (runGet env (statsUrl s a b) "API Error fetching stats").value =
      (runGet envT (statsUrl s a b) "API Error fetching stats").value
    rw [e1, eT]

/-- Witness for C10: a stub backend answering `null` versus a failing
transport. -/
theorem C10_json_null_indistinguishable_witness :
    (getStats (fun _ => FetchOutcome.response 200 "null")
      "all" 2017 2023).value = Json.null ∧
    (getTrend (fun _ => FetchOutcome.response 200 "null")
      "all").value = Json.null ∧
    (getPrediction (fun _ => FetchOutcome.response 200 "null")
      "all" 2024).value = Json.null ∧
    (getStats (fun _ => FetchOutcome.response 200 "null")
      "all" 2017 2023).value =
      (getStats (fun _ => FetchOutcome.transportError
        "TypeError: Failed to fetch") "all" 2017 2023).value :=
  C10_json_null_indistinguishable _ _ "all" 2017 2023 2024
    "TypeError: Failed to fetch" rfl rfl rfl rfl
